import Mathlib

/-!
Verification of the order-synchronization pipeline of the
seebeforebuy-ai-backend repository, as a shallow embedding in Lean 4.

Conventions of the embedding:
* ISO-8601 timestamp strings are modelled as `Nat` time values; such strings
  are always nonempty, hence always truthy in JavaScript, so `x || null` on a
  stored timestamp is the identity on `Option Nat`.
* Decimal money amounts are modelled as `Int` (the claims under verification
  never depend on floating-point rounding).
* A JavaScript value that may be `undefined`/`null` is modelled as `Option`.
* Thrown exceptions are modelled with `Except String`; injected storage or
  network faults are supplied by an explicit environment.
-/

namespace SBB

/-- JavaScript `a || b` for strings: the empty string is falsy. -/
def jsOrStr (a b : String) : String :=
  if a = "" then b else a

/-- JavaScript `x || d` for an optional string (`undefined`/`null`/`""` are
falsy and fall through to the default). -/
def jsOrStrD (a : Option String) (d : String) : String :=
  match a with
  | none => d
  | some s => jsOrStr s d

/-- JavaScript `x || null` for an optional string field. -/
def jsOrNullStr (a : Option String) : Option String :=
  match a with
  | none => none
  | some s => if s = "" then none else some s

/-- A custom key/value attribute on a line item
(`customAttributes` / `properties` entries). -/
structure OrderAttr where
  name : String
  value : String
  deriving Repr, DecidableEq, Inhabited

/-- A normalized line item as produced by
`ShopifyAPIService.transformGraphQLOrder`.  `properties` is optional to model
orders whose line items carry no attribute list at all. -/
structure LineItem where
  id : String
  title : String
  quantity : Nat
  price : Int
  product_id : Option String
  variant_id : Option String
  properties : Option (List OrderAttr)
  deriving Repr, DecidableEq, Inhabited

/-- A normalized order as produced by
`ShopifyAPIService.transformGraphQLOrder` (the transform always sets
`order_number = name`; we keep the two fields separate because the route
reads both with a `||` fallback).  `line_items` is optional to model orders
for which the field is absent. -/
structure Order where
  id : String
  name : String
  order_number : String
  created_at : Nat
  total_price : Int
  currency : String
  line_items : Option (List LineItem)
  deriving Repr, DecidableEq, Inhabited

namespace ShopifyAPIService

/-- The marker test of `ShopifyAPIService.filterSBBOrders`:
`order.line_items?.some(item => item.properties?.some(prop =>
prop.name === '_sbb_try_on' && prop.value === 'true'))`.
An absent `line_items` or `properties` is falsy. -/
def hasSBBItems (o : Order) : Bool :=
  (o.line_items.getD []).any fun item =>
    (item.properties.getD []).any fun p =>
      p.name = "_sbb_try_on" && p.value = "true"

/-- `ShopifyAPIService.filterSBBOrders`: keep exactly the orders passing the
marker test. -/
def filterSBBOrders (orders : List Order) : List Order :=
  orders.filter hasSBBItems

/-- Session-id values collected by `ShopifyAPIService.extractSessionIds`
before deduplication: the `value` of every property named `_sbb_session_id`
whose value is truthy (a nonempty string), in traversal order. -/
def sessionIdsRaw (o : Order) : List String :=
  (o.line_items.getD []).flatMap fun item =>
    ((item.properties.getD []).filter fun p =>
      p.name = "_sbb_session_id" && p.value ≠ "").map (·.value)

/-- `[...new Set(l)]`: deduplicate keeping the first occurrence of each
element, preserving insertion order. -/
def jsSetDedup (l : List String) : List String :=
  l.foldl (fun acc v => if v ∈ acc then acc else acc ++ [v]) []

/-- `ShopifyAPIService.extractSessionIds`. -/
def extractSessionIds (o : Order) : List String :=
  jsSetDedup (sessionIdsRaw o)

end ShopifyAPIService

/-- A line item as stored by the sync route
(`order.line_items.map(item => ({product_id, variant_id, title, quantity,
price}))`). -/
structure StoredLineItem where
  product_id : Option String
  variant_id : Option String
  title : String
  quantity : Nat
  price : Int
  deriving Repr, DecidableEq, Inhabited

/-- The record persisted in the `see-before-buy-orders` table
(`OrderModel.create`). -/
structure StoredOrder where
  order_id : String
  shop_domain : String
  order_number : String
  total_price : Int
  currency : String
  customer_email : Option String
  line_items : List StoredLineItem
  has_sbb_items : Bool
  sbb_session_ids : List String
  created_at : Nat
  synced_at : Nat
  deriving Repr, DecidableEq, Inhabited

/-- The argument object accepted by `OrderModel.create`; optional fields are
those the function defaults with `||`. -/
structure OrderData where
  order_id : String
  shop_domain : String
  order_number : String
  total_price : Int
  currency : Option String
  customer_email : Option String
  line_items : Option (List StoredLineItem)
  has_sbb_items : Option Bool
  sbb_session_ids : Option (List String)
  created_at : Option Nat
  deriving Repr, DecidableEq, Inhabited

namespace OrderModel

/-- The record built at the top of `OrderModel.create`, with the source's
`||` defaults (`currency || 'USD'`, `customer_email || null`,
`line_items || []`, `has_sbb_items || false`, `sbb_session_ids || []`,
`created_at || new Date().toISOString()`, `synced_at = now`). -/
def mkStored (d : OrderData) (now : Nat) : StoredOrder :=
  { order_id := d.order_id
    shop_domain := d.shop_domain
    order_number := d.order_number
    total_price := d.total_price
    currency := jsOrStrD d.currency "USD"
    customer_email := jsOrNullStr d.customer_email
    line_items := d.line_items.getD []
    has_sbb_items := d.has_sbb_items.getD false
    sbb_session_ids := d.sbb_session_ids.getD []
    created_at := d.created_at.getD now
    synced_at := now }

/-- Number of stored orders carrying a given external order id. -/
def countId (store : List StoredOrder) (id : String) : Nat :=
  (store.filter fun r => r.order_id = id).length

/-- `OrderModel.create`: a conditional put keyed by `order_id`
(`ConditionExpression: 'attribute_not_exists(order_id)'`).
`fault` injects a storage failure other than the conditional-check failure
(for example a network error); such a failure is rethrown and the table is
unchanged.  Without a fault: if a record with the same `order_id` already
exists the put fails its condition, which the source catches
(`ConditionalCheckFailedException`) and turns into the sentinel `null`
(`Except.ok none`); otherwise the record is written and returned. -/
def create (store : List StoredOrder) (now : Nat) (fault : Option String)
    (d : OrderData) : List StoredOrder × Except String (Option StoredOrder) :=
  match fault with
  | some e => (store, .error e)
  | none =>
    if store.any fun r => r.order_id = d.order_id then
      (store, .ok none)
    else
      let o := mkStored d now
      (store ++ [o], .ok (some o))

end OrderModel

/-- The `order_sync` checkpoint sub-record embedded in a shop
(conceptual shape in the spec; written by `ShopModel.updateOrderSync` and
`ShopModel.setSyncingFlag`).  A JavaScript object missing one of the optional
fields is identified with the field being `none` / `0`: every reader in the
source goes through `?.` and `|| null` / `|| 0`, so the two are
observationally equal. -/
structure OrderSyncCP where
  is_syncing : Bool
  last_sync_time : Option Nat
  last_synced_order_id : Option String
  last_synced_order_number : Option String
  last_synced_order_created_at : Option Nat
  total_orders_synced : Nat
  last_sync_count : Nat
  deriving Repr, DecidableEq, Inhabited

/-- The shop record, restricted to the fields the sync pipeline touches;
`extra` stands for all remaining shop fields (settings, plan, usage, ...) so
that frame properties are expressible. -/
structure Shop where
  shop_domain : String
  created_at : Nat
  order_sync : Option OrderSyncCP
  extra : List (String × String)
  deriving Repr, DecidableEq, Inhabited

/-- The persistent state the sync pipeline touches: the one shop record the
request addresses (`none` when no shop with that domain exists) and the
orders table. -/
structure SyncState where
  shop : Option Shop
  orders : List StoredOrder
  deriving Repr, DecidableEq, Inhabited

namespace ShopModel

/-- The full seven-field `order_sync` object built inside
`ShopModel.setSyncingFlag` from the freshly read shop: `is_syncing` is the
given flag, and each of the six progress fields is
`shop.order_sync?.field || null` (resp. `|| 0` for the counters).
Timestamps are `Option Nat` (ISO strings are nonempty, hence truthy), while
the id/number string fields go through `jsOrNullStr`. -/
def normalizeOrderSync (cur : Option OrderSyncCP) (b : Bool) : OrderSyncCP :=
  { is_syncing := b
    last_sync_time := cur.bind (·.last_sync_time)
    last_synced_order_id := jsOrNullStr (cur.bind (·.last_synced_order_id))
    last_synced_order_number := jsOrNullStr (cur.bind (·.last_synced_order_number))
    last_synced_order_created_at := cur.bind (·.last_synced_order_created_at)
    total_orders_synced := (cur.map (·.total_orders_synced)).getD 0
    last_sync_count := (cur.map (·.last_sync_count)).getD 0 }

/-- `ShopModel.setSyncingFlag`: re-reads the shop (`findOne`), throws
`'Shop not found'` when it is absent, and otherwise replaces the whole
`order_sync` object with the normalized seven-field record. -/
def setSyncingFlag (st : SyncState) (b : Bool) : Except String SyncState :=
  match st.shop with
  | none => .error "Shop not found"
  | some s =>
    .ok { st with shop := some { s with order_sync := some (normalizeOrderSync s.order_sync b) } }

/-- `ShopModel.updateOrderSync`: replaces the shop's `order_sync` attribute
with the given object (`SET #order_sync = :sync_data`). -/
def updateOrderSync (st : SyncState) (cp : OrderSyncCP) : SyncState :=
  { st with shop := st.shop.map fun s => { s with order_sync := some cp } }

end ShopModel

/-- The empty object `{}` used by the route's spread
`{...(shop.order_sync || {}), ...}`, identified with all-absent fields. -/
def emptyCP : OrderSyncCP :=
  { is_syncing := false
    last_sync_time := none
    last_synced_order_id := none
    last_synced_order_number := none
    last_synced_order_created_at := none
    total_orders_synced := 0
    last_sync_count := 0 }

/-- One insertion step of the newest-first sort
(`sbbOrders.sort((a, b) => new Date(b.created_at) - new Date(a.created_at))`,
modelled as an insertion sort over the same comparator; the claims only
depend on the head of the result having the maximal `created_at`). -/
def insertDesc (o : Order) : List Order → List Order
  | [] => [o]
  | x :: xs => if x.created_at ≤ o.created_at then o :: x :: xs else x :: insertDesc o xs

/-- Sort a list of orders by `created_at`, newest first. -/
def sortDesc (l : List Order) : List Order :=
  l.foldr insertDesc []

/-- The argument object the sync route passes to `OrderModel.create` for one
order.  The route maps `order.line_items` directly; a filtered order always
has `line_items` present (it passed `filterSBBOrders`), so the `getD []`
is never exercised on reachable inputs.  `order.email` is never set by
`transformGraphQLOrder`, hence `customer_email` is absent. -/
def orderToData (dom : String) (o : Order) : OrderData :=
  { order_id := o.id
    shop_domain := dom
    order_number := jsOrStr o.order_number o.name
    total_price := o.total_price
    currency := some o.currency
    customer_email := none
    line_items := some ((o.line_items.getD []).map fun i =>
      { product_id := i.product_id
        variant_id := i.variant_id
        title := i.title
        quantity := i.quantity
        price := i.price })
    has_sbb_items := some true
    sbb_session_ids := some (ShopifyAPIService.extractSessionIds o)
    created_at := some o.created_at }

/-- Accumulator of the route's per-order storage loop. -/
structure LoopAcc where
  store : List StoredOrder
  newCount : Nat
  dups : Nat
  revenue : Int
  deriving Repr, DecidableEq, Inhabited

/-- The route's `for (const order of sbbOrders)` loop: one `OrderModel.create`
per order; a created record bumps `newOrdersCount` and the revenue total, the
`null` sentinel bumps `duplicatesSkipped`, and any thrown storage error is
caught and logged, the loop continuing with the next order. -/
def storeLoop (dom : String) (now : Nat) (fault : String → Option String) :
    List Order → LoopAcc → LoopAcc
  | [], acc => acc
  | o :: rest, acc =>
    let r := OrderModel.create acc.store now (fault o.id) (orderToData dom o)
    let acc' : LoopAcc :=
      match r.2 with
      | .ok (some rec) =>
        { store := r.1, newCount := acc.newCount + 1, dups := acc.dups,
          revenue := acc.revenue + rec.total_price }
      | .ok none =>
        { store := r.1, newCount := acc.newCount, dups := acc.dups + 1,
          revenue := acc.revenue }
      | .error _ =>
        { store := r.1, newCount := acc.newCount, dups := acc.dups,
          revenue := acc.revenue }
    storeLoop dom now fault rest acc'

/-- Outcome reported by the `POST /api/sync-orders` handler. -/
inductive SyncOutcome where
  | shopNotFound
  | alreadySyncing
  | noNewOrders (total : Nat)
  | synced (newOrders duplicates total : Nat) (revenue : Int)
  | failed (msg : String)
  deriving Repr, DecidableEq, Inhabited

/-- The options object passed to `ShopifyAPIService.fetchOrders`. -/
structure FetchOptions where
  limit : Nat
  created_at_min : Option Nat
  deriving Repr, DecidableEq, Inhabited

/-- Environment of one sync run: the outcome of the Shopify fetch, an
injected per-order storage fault (keyed by order id, `none` = the put
succeeds or fails only its condition), and the current time. -/
structure SyncEnv where
  fetchResult : Except String (List Order)
  createFault : String → Option String
  now : Nat

/-- Result of one sync run: the final persistent state, the reported
outcome, and the options of the fetch call when one was issued. -/
structure SyncResult where
  state : SyncState
  outcome : SyncOutcome
  fetchCall : Option FetchOptions

/-- The fetch floor `syncStartDate` of the route: the shop's own
`created_at` when the checkpoint has no `last_synced_order_created_at`
(first sync), else that last synced order's creation timestamp. -/
def syncStartDateOf (shop : Shop) : Nat :=
  match shop.order_sync.bind (·.last_synced_order_created_at) with
  | none => shop.created_at
  | some t => t

/-- The body of the `POST /api/sync-orders` handler (after request-shape
validation), translated clause by clause from `src/routes/sync-orders.js`:
find the shop; refuse if `order_sync?.is_syncing` is truthy; set the syncing
flag; compute the fetch floor (`shop.created_at` on first sync, else
`last_synced_order_created_at`); fetch; filter; on the empty case rewrite the
spread checkpoint with only `last_sync_time` and `is_syncing` updated; on the
non-empty case sort newest-first, run the storage loop, and write the fresh
seven-field checkpoint; on a fetch failure clear the flag and propagate. -/
def syncRun (st : SyncState) (env : SyncEnv) : SyncResult :=
  match st.shop with
  | none => ⟨st, .shopNotFound, none⟩
  | some shop =>
    if (shop.order_sync.map (·.is_syncing)).getD false then
      ⟨st, .alreadySyncing, none⟩
    else
      let s1 : Shop :=
        { shop with order_sync := some (ShopModel.normalizeOrderSync shop.order_sync true) }
      let st1 : SyncState := { st with shop := some s1 }
      let fetchOpts : FetchOptions :=
        { limit := 250, created_at_min := some (syncStartDateOf shop) }
      match env.fetchResult with
      | .error e =>
        let sCleared : Shop :=
          { s1 with order_sync := some (ShopModel.normalizeOrderSync s1.order_sync false) }
        ⟨{ st1 with shop := some sCleared }, .failed e, some fetchOpts⟩
      | .ok allOrders =>
        match ShopifyAPIService.filterSBBOrders allOrders with
        | [] =>
          let syncData : OrderSyncCP :=
            { shop.order_sync.getD emptyCP with
              last_sync_time := some env.now
              is_syncing := false }
          ⟨ShopModel.updateOrderSync st1 syncData,
           .noNewOrders ((shop.order_sync.map (·.total_orders_synced)).getD 0),
           some fetchOpts⟩
        | o0 :: rest =>
          let sorted := sortDesc (o0 :: rest)
          let acc := storeLoop shop.shop_domain env.now env.createFault sorted
            ⟨st1.orders, 0, 0, 0⟩
          let latestOrder := sorted.headI
          let currentTotal :=
            (shop.order_sync.map (·.total_orders_synced)).getD 0 + acc.newCount
          let syncData : OrderSyncCP :=
            { is_syncing := false
              last_sync_time := some env.now
              last_synced_order_id := some latestOrder.id
              last_synced_order_number :=
                some (jsOrStr latestOrder.order_number latestOrder.name)
              last_synced_order_created_at := some latestOrder.created_at
              total_orders_synced := currentTotal
              last_sync_count := acc.newCount }
          ⟨ShopModel.updateOrderSync { st1 with orders := acc.store } syncData,
           .synced acc.newCount acc.dups currentTotal acc.revenue,
           some fetchOpts⟩

/-- A thrown JavaScript error, reduced to its `message`. -/
structure JsError where
  message : String
  deriving Repr, DecidableEq, Inhabited

/-- Whether `pat` occurs as a contiguous run inside `hay`. -/
def containsSub : List Char → List Char → Bool
  | [], pat => decide (pat = [])
  | c :: t, pat => pat.isPrefixOf (c :: t) || containsSub t pat

/-- `error.message.includes('429')`: the message contains the substring
`429`. -/
def has429 (m : String) : Bool :=
  containsSub m.data "429".data

namespace ShopifyAPIService

/-- The `for (let attempt = 1; attempt <= maxRetries; attempt++)` loop of
`ShopifyAPIService.fetchWithRetry`, as recursion on the number of remaining
attempts (`remaining = maxRetries - attempt + 1`).  `results attempt` is the
outcome of the wrapped HTTP call on that attempt.  The first component is
`none` exactly when the loop body never ran and never returned (the
JavaScript function then resolves to `undefined`, possible only for
`maxRetries = 0`); the second component records the sleeps performed, in
milliseconds. -/
def retryGo (results : Nat → Except JsError α) (attempt : Nat) :
    Nat → List Nat → Option (Except JsError α) × List Nat
  | 0, sleeps => (none, sleeps)
  | r + 1, sleeps =>
    match results attempt with
    | .ok a => (some (.ok a), sleeps)
    | .error e =>
      if has429 e.message && decide (0 < r) then
        retryGo results (attempt + 1) r (sleeps ++ [2000])
      else
        (some (.error e), sleeps)

/-- `ShopifyAPIService.fetchWithRetry` (default `maxRetries = 3`): retries
the call only on a rate-limit (`429`) failure and only while attempts
remain, sleeping a fixed 2000 ms before each retry; any other failure, or
the final attempt's failure, is rethrown at once. -/
def fetchWithRetry (results : Nat → Except JsError α) (maxRetries : Nat := 3) :
    Option (Except JsError α) × List Nat :=
  retryGo results 1 maxRetries []

/-- One page-level response of the orders query, after JSON parsing: whether
a GraphQL `errors` list is present, the transformed orders of
`data.orders.edges`, and `data.orders.pageInfo.hasNextPage`.  (The per-edge
cursor only feeds the next request and is abstracted away: responses are
indexed by request number.) -/
structure PageResp where
  errors : Bool
  orders : List Order
  hasNextPage : Bool
  deriving Repr, DecidableEq, Inhabited

/-- The `while (hasNextPage && page <= max_pages)` loop of
`ShopifyAPIService.fetchOrders`, as recursion on the number of page slots
remaining under the safety cap.  `resp k` is the settled outcome of the
retry-wrapped HTTP call for the `k`-th request (0-based); `made` counts
requests issued so far.  Returns the accumulated orders (or the first
propagated error) together with the total number of requests issued.  A
successfully parsed response carrying GraphQL `errors` is turned into a
thrown error after the retry wrapper has already returned, hence without
any retry. -/
def fetchPagesAux (resp : Nat → Except JsError PageResp) :
    Nat → Nat → List Order → Except JsError (List Order) × Nat
  | 0, made, acc => (.ok acc, made)
  | r + 1, made, acc =>
    match resp made with
    | .error e => (.error e, made + 1)
    | .ok p =>
      if p.errors then
        (.error ⟨"GraphQL errors"⟩, made + 1)
      else if p.hasNextPage then
        fetchPagesAux resp r (made + 1) (acc ++ p.orders)
      else
        (.ok (acc ++ p.orders), made + 1)

/-- `ShopifyAPIService.fetchOrders` at the pagination level, with the
source's default safety cap `max_pages = 10`. -/
def fetchOrders (resp : Nat → Except JsError PageResp) (maxPages : Nat := 10) :
    Except JsError (List Order) × Nat :=
  fetchPagesAux resp maxPages 0 []

end ShopifyAPIService

/-- The checkpoint stored for the addressed shop, if any. -/
def checkpointOf (st : SyncState) : Option OrderSyncCP :=
  st.shop.bind (·.order_sync)

/-- The reading `shop.order_sync?.total_orders_synced || 0` of the stored
cumulative counter. -/
def totalOf (st : SyncState) : Nat :=
  match st.shop with
  | none => 0
  | some s => (s.order_sync.map (·.total_orders_synced)).getD 0

/-- The number of newly created orders a run reports (`newOrdersCount`);
zero on every outcome other than a successful non-empty sync. -/
def syncNewCount (st : SyncState) (env : SyncEnv) : Nat :=
  match (syncRun st env).outcome with
  | .synced n _ _ _ => n
  | _ => 0

/-- Maximum `created_at` over a list of orders. -/
def maxCreatedAt (l : List Order) : Nat :=
  l.foldr (fun o m => max o.created_at m) 0

/-! Concrete inputs used to evaluate the model at specific points. -/

/-- A line item marked `_sbb_try_on = 'true'`. -/
def itemSBB : LineItem :=
  ⟨"li1", "shirt", 1, 5, none, none, some [⟨"_sbb_try_on", "true"⟩]⟩

/-- A fetched order without the marker attribute, created at time 100. -/
def orderA : Order :=
  ⟨"A", "#A", "#A", 100, 10, "USD", some [⟨"li0", "hat", 1, 10, none, none, some []⟩]⟩

/-- A fetched order carrying the marker attribute, created at time 50. -/
def orderB : Order :=
  ⟨"B", "#B", "#B", 50, 5, "USD", some [itemSBB]⟩

/-- A shop with no prior checkpoint, created at time 0. -/
def shop0 : Shop := ⟨"s.example", 0, none, []⟩

/-- Initial state for the concrete run: the shop exists, the orders table is
empty. -/
def st0 : SyncState := ⟨some shop0, []⟩

/-- Environment for the concrete run: the fetch returns `[orderA, orderB]`
(a newer non-marker order first, an older marker order second), storage is
fault-free, and the clock reads 1000. -/
def env0 : SyncEnv := ⟨.ok [orderA, orderB], fun _ => none, 1000⟩

/-- An order whose marker attribute carries the value `'TRUE'` instead of the
exact string `'true'`. -/
def orderTRUE : Order :=
  ⟨"C", "#C", "#C", 60, 5, "USD",
    some [⟨"li2", "shoe", 1, 5, none, none, some [⟨"_sbb_try_on", "TRUE"⟩]⟩]⟩

/-- An order with the `line_items` field absent altogether. -/
def orderNoItems : Order := ⟨"X", "#X", "#X", 0, 0, "USD", none⟩

/-- A checkpoint of a shop currently marked as syncing. -/
def cpBusy : OrderSyncCP := ⟨true, some 10, some "9", some "#9", some 20, 3, 1⟩

/-- A shop whose checkpoint says a sync is in progress. -/
def shopBusy : Shop := ⟨"busy.example", 5, some cpBusy, [("plan_type", "free")]⟩

/-- State addressing `shopBusy`. -/
def stBusy : SyncState := ⟨some shopBusy, []⟩

/-- An idle checkpoint left by an earlier run (3 orders synced so far,
newest at time 20). -/
def cpIdle : OrderSyncCP := ⟨false, some 10, some "9", some "#9", some 20, 3, 1⟩

/-- A shop with the idle checkpoint `cpIdle`. -/
def shopIdle : Shop := ⟨"idle.example", 5, some cpIdle, [("plan_type", "free")]⟩

/-- State addressing `shopIdle`. -/
def stIdle : SyncState := ⟨some shopIdle, []⟩

/-! ## Helper lemmas -/

theorem any_id_eq_false {store : List StoredOrder} {id : String}
    (h : ∀ r ∈ store, r.order_id ≠ id) :
    (store.any fun r => r.order_id = id) = false := by
  simp only [List.any_eq_false, decide_eq_true_eq]
  exact h

theorem mkStored_order_id (d : OrderData) (now : Nat) :
    (OrderModel.mkStored d now).order_id = d.order_id := rfl

/-! ## C1: idempotent deduplicating insert -/

/-- C1: calling `OrderModel.create` twice with the same external order id on
a table not yet containing it stores exactly one record: the first call
returns the created record, the second returns the "already existed"
sentinel (`null`, not an error) and writes nothing, and exactly one record
with that order id is stored afterwards; any storage failure other than the
uniqueness-condition failure is propagated as an error without touching the
table. -/
theorem orderModel_create_dedup
    (store : List StoredOrder) (now now' : Nat) (d : OrderData)
    (hfresh : ∀ r ∈ store, r.order_id ≠ d.order_id) :
    (OrderModel.create store now none d).2 =
        .ok (some (OrderModel.mkStored d now)) ∧
    (OrderModel.create (OrderModel.create store now none d).1 now' none d).2 =
        .ok none ∧
    (OrderModel.create (OrderModel.create store now none d).1 now' none d).1 =
        (OrderModel.create store now none d).1 ∧
    OrderModel.countId
        (OrderModel.create (OrderModel.create store now none d).1 now' none d).1
        d.order_id = 1 ∧
    (∀ (st : List StoredOrder) (e : String),
        OrderModel.create st now (some e) d = (st, .error e)) := by
  have hany := any_id_eq_false hfresh
  have h1 : OrderModel.create store now none d =
      (store ++ [OrderModel.mkStored d now], .ok (some (OrderModel.mkStored d now))) := by
    simp [OrderModel.create, hany]
  have hany2 : ((store ++ [OrderModel.mkStored d now]).any
      fun r => r.order_id = d.order_id) = true := by
    simp [List.any_append, mkStored_order_id]
  have h2 : OrderModel.create (store ++ [OrderModel.mkStored d now]) now' none d =
      (store ++ [OrderModel.mkStored d now], .ok none) := by
    simp [OrderModel.create, hany2]
  refine ⟨by rw [h1], by rw [h1]; rw [h2], by rw [h1]; rw [h2], ?_, ?_⟩
  · rw [h1, h2]
    have hnil : store.filter (fun r => decide (r.order_id = d.order_id)) = [] := by
      simp only [List.filter_eq_nil_iff, decide_eq_true_eq]
      exact hfresh
    simp [OrderModel.countId, List.filter_append, hnil, mkStored_order_id]
  · intro st e
    simp [OrderModel.create]

/-- Witness for C1: a fresh empty table, the marker order `orderB`, and an
injected fault. -/
theorem orderModel_create_dedup_witness :
    (OrderModel.create [] 7 none (orderToData "s.example" orderB)).2 =
        .ok (some (OrderModel.mkStored (orderToData "s.example" orderB) 7)) ∧
    (OrderModel.create (OrderModel.create [] 7 none (orderToData "s.example" orderB)).1 8
        none (orderToData "s.example" orderB)).2 = .ok none ∧
    (OrderModel.create (OrderModel.create [] 7 none (orderToData "s.example" orderB)).1 8
        none (orderToData "s.example" orderB)).1 =
        (OrderModel.create [] 7 none (orderToData "s.example" orderB)).1 ∧
    OrderModel.countId
        (OrderModel.create (OrderModel.create [] 7 none (orderToData "s.example" orderB)).1 8
          none (orderToData "s.example" orderB)).1
        (orderToData "s.example" orderB).order_id = 1 ∧
    (∀ (st : List StoredOrder) (e : String),
        OrderModel.create st 7 (some e) (orderToData "s.example" orderB) =
          (st, .error e)) :=
  orderModel_create_dedup [] 7 8 (orderToData "s.example" orderB) (by simp)

/-! ## C9: exact-match filtering and session-id extraction -/

theorem mem_jsSetDedup_foldl (l acc : List String) (v : String) :
    v ∈ l.foldl (fun acc v => if v ∈ acc then acc else acc ++ [v]) acc ↔
      v ∈ acc ∨ v ∈ l := by
  induction l generalizing acc with
  | nil => simp
  | cons x xs ih =>
    rw [List.foldl_cons, ih]
    by_cases hx : x ∈ acc
    · simp only [if_pos hx, List.mem_cons]
      constructor
      · rintro (hv | hv)
        · exact Or.inl hv
        · exact Or.inr (Or.inr hv)
      · rintro (hv | hv | hv)
        · exact Or.inl hv
        · exact Or.inl (hv ▸ hx)
        · exact Or.inr hv
    · simp only [if_neg hx, List.mem_append, List.mem_singleton, List.mem_cons,
        List.not_mem_nil, or_assoc, false_or]

theorem nodup_jsSetDedup_foldl (l acc : List String) (hacc : acc.Nodup) :
    (l.foldl (fun acc v => if v ∈ acc then acc else acc ++ [v]) acc).Nodup := by
  induction l generalizing acc with
  | nil => exact hacc
  | cons x xs ih =>
    rw [List.foldl_cons]
    by_cases hx : x ∈ acc
    · rw [if_pos hx]; exact ih acc hacc
    · rw [if_neg hx]
      refine ih _ ?_
      simp [List.nodup_append, hacc, hx]

theorem mem_sessionIdsRaw (o : Order) (v : String) :
    v ∈ ShopifyAPIService.sessionIdsRaw o ↔
      v ≠ "" ∧ ∃ item ∈ o.line_items.getD [], ∃ p ∈ item.properties.getD [],
        p.name = "_sbb_session_id" ∧ p.value = v := by
  simp only [ShopifyAPIService.sessionIdsRaw, List.mem_flatMap, List.mem_map,
    List.mem_filter, Bool.and_eq_true, decide_eq_true_eq]
  constructor
  · rintro ⟨item, hitem, p, ⟨hp, hname, hval⟩, rfl⟩
    exact ⟨hval, item, hitem, p, hp, hname, rfl⟩
  · rintro ⟨hv, item, hitem, p, hp, hname, rfl⟩
    exact ⟨item, hitem, p, ⟨hp, hname, hv⟩, rfl⟩

/-- C9: order selection and session extraction use exact string matching:
`filterSBBOrders` keeps an order iff some line item carries a property named
exactly `_sbb_try_on` with value exactly `'true'` (so `'TRUE'` is not
selected); `extractSessionIds` returns the deduplicated values of properties
named exactly `_sbb_session_id`, skipping the falsy empty string; and both
yield not-selected / the empty list for missing or empty `line_items`. -/
theorem filter_extract_exact_matching :
    (∀ (orders : List Order) (o : Order),
        o ∈ ShopifyAPIService.filterSBBOrders orders ↔
          o ∈ orders ∧ ∃ item ∈ o.line_items.getD [],
            ∃ p ∈ item.properties.getD [],
              p.name = "_sbb_try_on" ∧ p.value = "true") ∧
    (∀ (o : Order) (v : String),
        v ∈ ShopifyAPIService.extractSessionIds o ↔
          v ≠ "" ∧ ∃ item ∈ o.line_items.getD [],
            ∃ p ∈ item.properties.getD [],
              p.name = "_sbb_session_id" ∧ p.value = v) ∧
    (∀ o : Order, (ShopifyAPIService.extractSessionIds o).Nodup) ∧
    ShopifyAPIService.hasSBBItems orderTRUE = false ∧
    (∀ o : Order, o.line_items = none ∨ o.line_items = some [] →
        ShopifyAPIService.hasSBBItems o = false ∧
        ShopifyAPIService.extractSessionIds o = []) := by
  refine ⟨?_, ?_, ?_, ?_, ?_⟩
  · intro orders o
    simp [ShopifyAPIService.filterSBBOrders, List.mem_filter,
      ShopifyAPIService.hasSBBItems, List.any_eq_true]
  · intro o v
    rw [ShopifyAPIService.extractSessionIds, ShopifyAPIService.jsSetDedup,
      mem_jsSetDedup_foldl]
    simp [mem_sessionIdsRaw]
  · intro o
    exact nodup_jsSetDedup_foldl _ [] List.nodup_nil
  · rfl
  · intro o h
    rcases h with h | h <;>
      simp [ShopifyAPIService.hasSBBItems, ShopifyAPIService.extractSessionIds,
        ShopifyAPIService.sessionIdsRaw, ShopifyAPIService.jsSetDedup, h]

/-- Witness for C9 at an order with absent `line_items`. -/
theorem filter_extract_exact_matching_witness :
    ShopifyAPIService.hasSBBItems orderNoItems = false ∧
    ShopifyAPIService.extractSessionIds orderNoItems = [] :=
  filter_extract_exact_matching.2.2.2.2 orderNoItems (Or.inl rfl)

/-! ## Properties of the newest-first sort -/

theorem mem_insertDesc (o x : Order) (l : List Order) :
    x ∈ insertDesc o l ↔ x = o ∨ x ∈ l := by
  induction l with
  | nil => simp [insertDesc]
  | cons y ys ih =>
    rw [insertDesc]
    by_cases h : y.created_at ≤ o.created_at
    · simp [if_pos h, List.mem_cons]
    · rw [if_neg h]
      simp only [List.mem_cons, ih]
      tauto

theorem insertDesc_ne_nil (o : Order) (l : List Order) : insertDesc o l ≠ [] := by
  cases l with
  | nil => simp [insertDesc]
  | cons y ys =>
    rw [insertDesc]
    split <;> simp

theorem headI_max_insertDesc (o : Order) (l : List Order)
    (hl : ∀ x ∈ l, x.created_at ≤ l.headI.created_at) :
    ∀ x ∈ insertDesc o l, x.created_at ≤ (insertDesc o l).headI.created_at := by
  cases l with
  | nil =>
    intro x hx
    simp only [insertDesc, List.mem_singleton] at hx
    subst hx
    simp [insertDesc]
  | cons y ys =>
    rw [insertDesc]
    by_cases h : y.created_at ≤ o.created_at
    · rw [if_pos h]
      intro x hx
      rcases List.mem_cons.mp hx with rfl | hx
      · simp
      · rcases List.mem_cons.mp hx with rfl | hx
        · simpa using h
        · have := hl x (List.mem_cons_of_mem _ hx)
          simp only [List.headI] at this ⊢
          exact this.trans h
    · rw [if_neg h]
      have hoy : o.created_at ≤ y.created_at := Nat.le_of_lt (Nat.lt_of_not_le h)
      intro x hx
      rcases List.mem_cons.mp hx with rfl | hx
      · simp
      · rcases (mem_insertDesc o x ys).mp hx with rfl | hx
        · simpa using hoy
        · have := hl x (List.mem_cons_of_mem _ hx)
          simpa using this

theorem sortDesc_cons (a : Order) (l : List Order) :
    sortDesc (a :: l) = insertDesc a (sortDesc l) := rfl

theorem mem_sortDesc (x : Order) (l : List Order) : x ∈ sortDesc l ↔ x ∈ l := by
  induction l with
  | nil => simp [sortDesc]
  | cons a l ih =>
    rw [sortDesc_cons, mem_insertDesc, ih, List.mem_cons]

theorem sortDesc_ne_nil (a : Order) (l : List Order) : sortDesc (a :: l) ≠ [] := by
  rw [sortDesc_cons]; exact insertDesc_ne_nil _ _

theorem sortDesc_headI_max (l : List Order) :
    ∀ x ∈ sortDesc l, x.created_at ≤ (sortDesc l).headI.created_at := by
  induction l with
  | nil => simp [sortDesc]
  | cons a l ih =>
    rw [sortDesc_cons]
    exact headI_max_insertDesc a (sortDesc l) ih

theorem headI_mem_of_ne_nil (l : List Order) (h : l ≠ []) : l.headI ∈ l := by
  cases l with
  | nil => exact absurd rfl h
  | cons a l => simp [List.headI]

/-! ## Branch characterizations of the sync run -/

theorem syncRun_shop_not_found (st : SyncState) (env : SyncEnv) (h : st.shop = none) :
    syncRun st env = ⟨st, .shopNotFound, none⟩ := by
  simp [syncRun, h]

theorem syncRun_already_syncing (st : SyncState) (env : SyncEnv) (shop : Shop)
    (hs : st.shop = some shop)
    (hg : (shop.order_sync.map (·.is_syncing)).getD false = true) :
    syncRun st env = ⟨st, .alreadySyncing, none⟩ := by
  simp [syncRun, hs, hg]

theorem syncRun_failed_eq (st : SyncState) (env : SyncEnv) (shop : Shop) (e : String)
    (hs : st.shop = some shop)
    (hg : (shop.order_sync.map (·.is_syncing)).getD false = false)
    (hf : env.fetchResult = .error e) :
    syncRun st env =
      ⟨⟨some { shop with order_sync := some (ShopModel.normalizeOrderSync
          (some (ShopModel.normalizeOrderSync shop.order_sync true)) false) }, st.orders⟩,
       .failed e, some ⟨250, some (syncStartDateOf shop)⟩⟩ := by
  simp [syncRun, hs, hg, hf]

theorem syncRun_noNew_eq (st : SyncState) (env : SyncEnv) (shop : Shop)
    (allOrders : List Order)
    (hs : st.shop = some shop)
    (hg : (shop.order_sync.map (·.is_syncing)).getD false = false)
    (hf : env.fetchResult = .ok allOrders)
    (hfil : ShopifyAPIService.filterSBBOrders allOrders = []) :
    syncRun st env =
      ⟨⟨some { shop with order_sync := some (
          { shop.order_sync.getD emptyCP with
            last_sync_time := some env.now, is_syncing := false }) }, st.orders⟩,
       .noNewOrders ((shop.order_sync.map (·.total_orders_synced)).getD 0),
       some ⟨250, some (syncStartDateOf shop)⟩⟩ := by
  simp [syncRun, hs, hg, hf, hfil, ShopModel.updateOrderSync]

theorem syncRun_synced_eq (st : SyncState) (env : SyncEnv) (shop : Shop)
    (allOrders : List Order) (o0 : Order) (rest : List Order)
    (hs : st.shop = some shop)
    (hg : (shop.order_sync.map (·.is_syncing)).getD false = false)
    (hf : env.fetchResult = .ok allOrders)
    (hfil : ShopifyAPIService.filterSBBOrders allOrders = o0 :: rest) :
    syncRun st env =
      ⟨⟨some { shop with order_sync := some (
          ⟨false, some env.now,
           some ((sortDesc (o0 :: rest)).headI.id),
           some (jsOrStr (sortDesc (o0 :: rest)).headI.order_number
             (sortDesc (o0 :: rest)).headI.name),
           some ((sortDesc (o0 :: rest)).headI.created_at),
           (shop.order_sync.map (·.total_orders_synced)).getD 0 +
             (storeLoop shop.shop_domain env.now env.createFault (sortDesc (o0 :: rest))
               ⟨st.orders, 0, 0, 0⟩).newCount,
           (storeLoop shop.shop_domain env.now env.createFault (sortDesc (o0 :: rest))
               ⟨st.orders, 0, 0, 0⟩).newCount⟩) },
        (storeLoop shop.shop_domain env.now env.createFault (sortDesc (o0 :: rest))
            ⟨st.orders, 0, 0, 0⟩).store⟩,
       .synced
         (storeLoop shop.shop_domain env.now env.createFault (sortDesc (o0 :: rest))
             ⟨st.orders, 0, 0, 0⟩).newCount
         (storeLoop shop.shop_domain env.now env.createFault (sortDesc (o0 :: rest))
             ⟨st.orders, 0, 0, 0⟩).dups
         ((shop.order_sync.map (·.total_orders_synced)).getD 0 +
           (storeLoop shop.shop_domain env.now env.createFault (sortDesc (o0 :: rest))
               ⟨st.orders, 0, 0, 0⟩).newCount)
         (storeLoop shop.shop_domain env.now env.createFault (sortDesc (o0 :: rest))
             ⟨st.orders, 0, 0, 0⟩).revenue,
       some ⟨250, some (syncStartDateOf shop)⟩⟩ := by
  simp [syncRun, hs, hg, hf, hfil, ShopModel.updateOrderSync]

/-! ## C2: the syncing flag is cleared on every exit path -/

/-- C2: for every run passing the already-syncing guard — successful,
no-new-orders, or failed — the stored checkpoint has `is_syncing = false`
immediately after the run, and on the failure path the cleared flag
accompanies the propagated error. -/
theorem sync_clears_is_syncing (st : SyncState) (env : SyncEnv) (shop : Shop)
    (hs : st.shop = some shop)
    (hg : (shop.order_sync.map (·.is_syncing)).getD false = false) :
    (∃ s' cp, (syncRun st env).state.shop = some s' ∧ s'.order_sync = some cp ∧
      cp.is_syncing = false) ∧
    (∀ e, env.fetchResult = .error e → (syncRun st env).outcome = .failed e) := by
  constructor
  · cases hf : env.fetchResult with
    | error e =>
      rw [syncRun_failed_eq st env shop e hs hg hf]
      exact ⟨_, _, rfl, rfl, rfl⟩
    | ok allOrders =>
      cases hfil : ShopifyAPIService.filterSBBOrders allOrders with
      | nil =>
        rw [syncRun_noNew_eq st env shop allOrders hs hg hf hfil]
        exact ⟨_, _, rfl, rfl, rfl⟩
      | cons o0 rest =>
        rw [syncRun_synced_eq st env shop allOrders o0 rest hs hg hf hfil]
        exact ⟨_, _, rfl, rfl, rfl⟩
  · intro e hf
    rw [syncRun_failed_eq st env shop e hs hg hf]

/-- Witness for C2 on the concrete first-sync run. -/
theorem sync_clears_is_syncing_witness :
    (∃ s' cp, (syncRun st0 env0).state.shop = some s' ∧ s'.order_sync = some cp ∧
      cp.is_syncing = false) ∧
    (∀ e, env0.fetchResult = .error e → (syncRun st0 env0).outcome = .failed e) :=
  sync_clears_is_syncing st0 env0 shop0 rfl rfl

/-! ## C4: the guard never mutates state -/

/-- C4: a sync request arriving while the checkpoint has `is_syncing = true`
returns the "already in progress" outcome and leaves the entire persistent
state — in particular every field of `order_sync` — unchanged. -/
theorem alreadySyncing_no_mutation (st : SyncState) (env : SyncEnv)
    (shop : Shop) (cp : OrderSyncCP)
    (hs : st.shop = some shop) (hcp : shop.order_sync = some cp)
    (hsync : cp.is_syncing = true) :
    syncRun st env = ⟨st, .alreadySyncing, none⟩ :=
  syncRun_already_syncing st env shop hs (by simp [hcp, hsync])

/-- Witness for C4 on the concrete busy shop. -/
theorem alreadySyncing_no_mutation_witness :
    syncRun stBusy env0 = ⟨stBusy, .alreadySyncing, none⟩ :=
  alreadySyncing_no_mutation stBusy env0 shopBusy cpBusy rfl rfl rfl

/-! ## C6: the fetch floor -/

/-- C6: on a first sync (no `last_synced_order_created_at` in the
checkpoint) the creation-time lower bound passed to the fetcher equals the
shop's own `created_at`; on a subsequent sync it equals the last synced
order's creation timestamp.  (The page size passed is always 250.) -/
theorem first_sync_floor (st : SyncState) (env : SyncEnv) (shop : Shop)
    (hs : st.shop = some shop)
    (hg : (shop.order_sync.map (·.is_syncing)).getD false = false) :
    (shop.order_sync.bind (·.last_synced_order_created_at) = none →
      (syncRun st env).fetchCall = some ⟨250, some shop.created_at⟩) ∧
    (∀ t, shop.order_sync.bind (·.last_synced_order_created_at) = some t →
      (syncRun st env).fetchCall = some ⟨250, some t⟩) := by
  have hcall : (syncRun st env).fetchCall = some ⟨250, some (syncStartDateOf shop)⟩ := by
    cases hf : env.fetchResult with
    | error e => rw [syncRun_failed_eq st env shop e hs hg hf]
    | ok allOrders =>
      cases hfil : ShopifyAPIService.filterSBBOrders allOrders with
      | nil => rw [syncRun_noNew_eq st env shop allOrders hs hg hf hfil]
      | cons o0 rest => rw [syncRun_synced_eq st env shop allOrders o0 rest hs hg hf hfil]
  constructor
  · intro h
    rw [hcall]
    simp [syncStartDateOf, h]
  · intro t h
    rw [hcall]
    simp [syncStartDateOf, h]

/-- Witness for C6: the first-sync floor on `st0` (shop created at 0, no
checkpoint) and the incremental floor on `stIdle` (last order at 20). -/
theorem first_sync_floor_witness :
    (syncRun st0 env0).fetchCall = some ⟨250, some shop0.created_at⟩ ∧
    (syncRun stIdle env0).fetchCall = some ⟨250, some 20⟩ :=
  ⟨(first_sync_floor st0 env0 shop0 rfl rfl).1 rfl,
   (first_sync_floor stIdle env0 shopIdle rfl rfl).2 20 rfl⟩

/-! ## C7: the cumulative counter -/

theorem storeLoop_store_length (dom : String) (now : Nat)
    (fault : String → Option String) (l : List Order) (acc : LoopAcc) :
    (storeLoop dom now fault l acc).store.length + acc.newCount =
      acc.store.length + (storeLoop dom now fault l acc).newCount := by
  induction l generalizing acc with
  | nil => rfl
  | cons o rest ih =>
    rw [storeLoop]
    cases hfo : fault o.id with
    | some e =>
      have := ih ⟨acc.store, acc.newCount, acc.dups, acc.revenue⟩
      simpa [OrderModel.create, hfo] using this
    | none =>
      by_cases hany : (acc.store.any fun r =>
          r.order_id = (orderToData dom o).order_id) = true
      · have := ih ⟨acc.store, acc.newCount, acc.dups + 1, acc.revenue⟩
        simpa [OrderModel.create, hfo, hany] using this
      · have := ih ⟨acc.store ++ [OrderModel.mkStored (orderToData dom o) now],
          acc.newCount + 1, acc.dups,
          acc.revenue + (OrderModel.mkStored (orderToData dom o) now).total_price⟩
        simp only [OrderModel.create, hfo, eq_false_of_ne_true hany, Bool.false_eq_true,
          if_false, List.length_append, List.length_singleton] at this ⊢
        omega

theorem normalizeOrderSync_total (cur : Option OrderSyncCP) (b : Bool) :
    (ShopModel.normalizeOrderSync cur b).total_orders_synced =
      (cur.map (·.total_orders_synced)).getD 0 := rfl

theorem getD_emptyCP_total (cur : Option OrderSyncCP) :
    (cur.getD emptyCP).total_orders_synced =
      (cur.map (·.total_orders_synced)).getD 0 := by
  cases cur <;> rfl

/-- C7: one run adds exactly the count of newly created (non-duplicate,
non-errored) orders to `total_orders_synced`, and adds exactly that many
records to the orders table; runs that create nothing — including
no-new-orders, failed, guarded, and shop-not-found runs — leave the counter
unchanged, so across consecutive runs the counter never decreases. -/
theorem total_orders_monotonic (st : SyncState) (env : SyncEnv) :
    totalOf (syncRun st env).state = totalOf st + syncNewCount st env ∧
    (syncRun st env).state.orders.length = st.orders.length + syncNewCount st env ∧
    totalOf st ≤ totalOf (syncRun st env).state := by
  have main : totalOf (syncRun st env).state = totalOf st + syncNewCount st env ∧
      (syncRun st env).state.orders.length = st.orders.length + syncNewCount st env := by
    cases hsh : st.shop with
    | none =>
      simp only [syncNewCount, syncRun_shop_not_found st env hsh]
      simp
    | some shop =>
      cases hb : (shop.order_sync.map (·.is_syncing)).getD false with
      | true =>
        simp only [syncNewCount, syncRun_already_syncing st env shop hsh hb]
        simp
      | false =>
        cases hf : env.fetchResult with
        | error e =>
          simp only [syncNewCount, syncRun_failed_eq st env shop e hsh hb hf]
          simp [totalOf, hsh, ShopModel.normalizeOrderSync]
        | ok allOrders =>
          cases hfil : ShopifyAPIService.filterSBBOrders allOrders with
          | nil =>
            simp only [syncNewCount, syncRun_noNew_eq st env shop allOrders hsh hb hf hfil]
            simp [totalOf, hsh, getD_emptyCP_total]
          | cons o0 rest =>
            simp only [syncNewCount, syncRun_synced_eq st env shop allOrders o0 rest hsh hb hf hfil]
            have hlen := storeLoop_store_length shop.shop_domain env.now env.createFault
              (sortDesc (o0 :: rest)) ⟨st.orders, 0, 0, 0⟩
            constructor
            · simp [totalOf, hsh]
            · simpa using hlen
  exact ⟨main.1, main.2, main.1 ▸ Nat.le_add_right _ _⟩

/-! ## C3: the high-water mark -/

/-- Counterexample to C3 as stated: a successful run fetching
`[orderA, orderB]` (orderA newer but without the marker, orderB older with
the marker) ends with `last_synced_order_created_at = 50`, the newest
*filtered* order, while the maximum creation timestamp among all *fetched*
orders is 100 — the code sorts only the filtered set. -/
theorem highwater_not_max_of_fetched :
    env0.fetchResult = .ok [orderA, orderB] ∧
    (syncRun st0 env0).outcome = .synced 1 0 1 5 ∧
    (checkpointOf (syncRun st0 env0).state).bind (·.last_synced_order_created_at) =
      some 50 ∧
    maxCreatedAt [orderA, orderB] = 100 ∧
    (checkpointOf (syncRun st0 env0).state).bind (·.last_synced_order_created_at) ≠
      some (maxCreatedAt [orderA, orderB]) := by
  refine ⟨rfl, by decide, by decide, by decide, by decide⟩

/-- C3 (amended): after every successful sync run whose filtered set is
non-empty, `last_synced_order_created_at` equals the maximum creation
timestamp among the *filtered* (marker-tagged) orders of that run — not of
all fetched orders — and `last_synced_order_id`/`number` are taken from that
same newest filtered order. -/
theorem highwater_max_of_filtered (st : SyncState) (env : SyncEnv) (shop : Shop)
    (allOrders : List Order) (o0 : Order) (rest : List Order)
    (hs : st.shop = some shop)
    (hg : (shop.order_sync.map (·.is_syncing)).getD false = false)
    (hf : env.fetchResult = .ok allOrders)
    (hfil : ShopifyAPIService.filterSBBOrders allOrders = o0 :: rest) :
    ∃ m, m ∈ ShopifyAPIService.filterSBBOrders allOrders ∧
      (∀ x ∈ ShopifyAPIService.filterSBBOrders allOrders, x.created_at ≤ m.created_at) ∧
      (checkpointOf (syncRun st env).state).bind (·.last_synced_order_created_at) =
        some m.created_at ∧
      (checkpointOf (syncRun st env).state).bind (·.last_synced_order_id) = some m.id ∧
      (checkpointOf (syncRun st env).state).bind (·.last_synced_order_number) =
        some (jsOrStr m.order_number m.name) := by
  refine ⟨(sortDesc (o0 :: rest)).headI, ?_, ?_, ?_, ?_, ?_⟩
  · rw [hfil]
    exact (mem_sortDesc _ _).mp (headI_mem_of_ne_nil _ (sortDesc_ne_nil o0 rest))
  · rw [hfil]
    intro x hx
    exact sortDesc_headI_max (o0 :: rest) x ((mem_sortDesc x _).mpr hx)
  · rw [syncRun_synced_eq st env shop allOrders o0 rest hs hg hf hfil]
    rfl
  · rw [syncRun_synced_eq st env shop allOrders o0 rest hs hg hf hfil]
    rfl
  · rw [syncRun_synced_eq st env shop allOrders o0 rest hs hg hf hfil]
    rfl

/-- Witness for the amended C3 on the concrete run. -/
theorem highwater_max_of_filtered_witness :
    ∃ m, m ∈ ShopifyAPIService.filterSBBOrders [orderA, orderB] ∧
      (∀ x ∈ ShopifyAPIService.filterSBBOrders [orderA, orderB],
        x.created_at ≤ m.created_at) ∧
      (checkpointOf (syncRun st0 env0).state).bind (·.last_synced_order_created_at) =
        some m.created_at ∧
      (checkpointOf (syncRun st0 env0).state).bind (·.last_synced_order_id) = some m.id ∧
      (checkpointOf (syncRun st0 env0).state).bind (·.last_synced_order_number) =
        some (jsOrStr m.order_number m.name) :=
  highwater_max_of_filtered st0 env0 shop0 [orderA, orderB] orderB [] rfl rfl rfl
    (by decide)

/-! ## C5: the per-call retry policy -/

/-- C5: per HTTP call, a rate-limit (`429`) failure causes a fixed 2-second
(2000 ms) sleep and a retry, up to 3 attempts in total; the final attempt's
failure, and any non-rate-limit failure, is propagated immediately with no
further retry; and a response that parses successfully but carries a GraphQL
`errors` list is turned into a failure by the page loop after the retry
wrapper has already returned success — hence with exactly one attempt and no
retry. -/
theorem fetchWithRetry_policy {α : Type} :
    (∀ (results : Nat → Except JsError α) (x : α),
        results 1 = .ok x →
        ShopifyAPIService.fetchWithRetry results 3 = (some (.ok x), [])) ∧
    (∀ (results : Nat → Except JsError α) (e : JsError),
        results 1 = .error e → has429 e.message = false →
        ShopifyAPIService.fetchWithRetry results 3 = (some (.error e), [])) ∧
    (∀ (results : Nat → Except JsError α) (e1 : JsError) (x : α),
        results 1 = .error e1 → has429 e1.message = true → results 2 = .ok x →
        ShopifyAPIService.fetchWithRetry results 3 = (some (.ok x), [2000])) ∧
    (∀ (results : Nat → Except JsError α) (e1 e2 : JsError),
        results 1 = .error e1 → has429 e1.message = true →
        results 2 = .error e2 → has429 e2.message = false →
        ShopifyAPIService.fetchWithRetry results 3 = (some (.error e2), [2000])) ∧
    (∀ (results : Nat → Except JsError α) (e1 e2 : JsError) (x : α),
        results 1 = .error e1 → has429 e1.message = true →
        results 2 = .error e2 → has429 e2.message = true → results 3 = .ok x →
        ShopifyAPIService.fetchWithRetry results 3 = (some (.ok x), [2000, 2000])) ∧
    (∀ (results : Nat → Except JsError α) (e1 e2 e3 : JsError),
        results 1 = .error e1 → has429 e1.message = true →
        results 2 = .error e2 → has429 e2.message = true → results 3 = .error e3 →
        ShopifyAPIService.fetchWithRetry results 3 = (some (.error e3), [2000, 2000])) ∧
    (∀ (resp : Nat → Except JsError ShopifyAPIService.PageResp)
        (p : ShopifyAPIService.PageResp) (maxPages : Nat),
        resp 0 = .ok p → p.errors = true → 1 ≤ maxPages →
        ShopifyAPIService.fetchOrders resp maxPages = (.error ⟨"GraphQL errors"⟩, 1)) := by
  refine ⟨?_, ?_, ?_, ?_, ?_, ?_, ?_⟩
  · intro results x h1
    simp [ShopifyAPIService.fetchWithRetry, ShopifyAPIService.retryGo, h1]
  · intro results e h1 h429
    simp [ShopifyAPIService.fetchWithRetry, ShopifyAPIService.retryGo, h1, h429]
  · intro results e1 x h1 h429 h2
    simp [ShopifyAPIService.fetchWithRetry, ShopifyAPIService.retryGo, h1, h429, h2]
  · intro results e1 e2 h1 h429a h2 h429b
    simp [ShopifyAPIService.fetchWithRetry, ShopifyAPIService.retryGo, h1, h429a, h2, h429b]
  · intro results e1 e2 x h1 h429a h2 h429b h3
    simp [ShopifyAPIService.fetchWithRetry, ShopifyAPIService.retryGo,
      h1, h429a, h2, h429b, h3]
  · intro results e1 e2 e3 h1 h429a h2 h429b h3
    simp [ShopifyAPIService.fetchWithRetry, ShopifyAPIService.retryGo,
      h1, h429a, h2, h429b, h3]
  · intro resp p maxPages hr hp hm
    cases maxPages with
    | zero => omega
    | succ r =>
      simp [ShopifyAPIService.fetchOrders, ShopifyAPIService.fetchPagesAux, hr, hp]

/-- Witness for C5: a first-attempt 429 failure followed by a success, and a
page whose body carries a GraphQL `errors` list. -/
theorem fetchWithRetry_policy_witness :
    ShopifyAPIService.fetchWithRetry
        (fun k => if k = 1 then .error ⟨"Shopify GraphQL error: 429 Too Many Requests"⟩
          else .ok (7 : Nat)) 3 = (some (.ok 7), [2000]) ∧
    ShopifyAPIService.fetchOrders (fun _ => .ok ⟨true, [], true⟩) 10 =
      (.error ⟨"GraphQL errors"⟩, 1) :=
  ⟨(@fetchWithRetry_policy Nat).2.2.1 _ ⟨"Shopify GraphQL error: 429 Too Many Requests"⟩ 7
      rfl (by decide) rfl,
   (@fetchWithRetry_policy Nat).2.2.2.2.2.2 _ ⟨true, [], true⟩ 10 rfl rfl (by decide)⟩

/-! ## C8: bounded pagination -/

theorem fetchPagesAux_requests_le (resp : Nat → Except JsError ShopifyAPIService.PageResp)
    (r made : Nat) (acc : List Order) :
    (ShopifyAPIService.fetchPagesAux resp r made acc).2 ≤ made + r := by
  induction r generalizing made acc with
  | zero => simp [ShopifyAPIService.fetchPagesAux]
  | succ r ih =>
    rw [ShopifyAPIService.fetchPagesAux]
    cases hr : resp made with
    | error e => simp only []; omega
    | ok p =>
      by_cases he : p.errors
      · simp only [he, if_true]; omega
      · by_cases hn : p.hasNextPage
        · simp only [he, hn, Bool.false_eq_true, if_false, if_true]
          have := ih (made + 1) (acc ++ p.orders)
          omega
        · simp only [he, hn, Bool.false_eq_true, if_false]; omega

theorem fetchPagesAux_no_continue_past_false
    (resp : Nat → Except JsError ShopifyAPIService.PageResp) (r : Nat) :
    ∀ (made : Nat) (acc : List Order) (k : Nat), made ≤ k →
      k + 1 < (ShopifyAPIService.fetchPagesAux resp r made acc).2 →
      ∃ p, resp k = .ok p ∧ p.errors = false ∧ p.hasNextPage = true := by
  induction r with
  | zero =>
    intro made acc k hk hlt
    simp [ShopifyAPIService.fetchPagesAux] at hlt
    omega
  | succ r ih =>
    intro made acc k hk hlt
    rw [ShopifyAPIService.fetchPagesAux] at hlt
    cases hr : resp made with
    | error e => rw [hr] at hlt; simp at hlt; omega
    | ok p =>
      rw [hr] at hlt
      by_cases he : p.errors
      · simp [he] at hlt; omega
      · by_cases hn : p.hasNextPage
        · rcases Nat.eq_or_lt_of_le hk with rfl | hklt
          · exact ⟨p, hr, eq_false_of_ne_true he, hn⟩
          · simp only [he, hn, if_false, if_true, Bool.false_eq_true] at hlt
            exact ih (made + 1) (acc ++ p.orders) k hklt hlt
        · simp [he, hn] at hlt; omega

theorem fetchPagesAux_length_le (resp : Nat → Except JsError ShopifyAPIService.PageResp)
    (limit : Nat) (hlim : ∀ k p, resp k = .ok p → p.orders.length ≤ limit) (r : Nat) :
    ∀ (made : Nat) (acc l : List Order),
      (ShopifyAPIService.fetchPagesAux resp r made acc).1 = .ok l →
      l.length ≤ acc.length + r * limit := by
  induction r with
  | zero =>
    intro made acc l h
    simp [ShopifyAPIService.fetchPagesAux] at h
    simp [← h]
  | succ r ih =>
    intro made acc l h
    rw [ShopifyAPIService.fetchPagesAux] at h
    cases hr : resp made with
    | error e => rw [hr] at h; simp at h
    | ok p =>
      rw [hr] at h
      have hp := hlim made p hr
      by_cases he : p.errors
      · simp [he] at h
      · by_cases hn : p.hasNextPage
        · simp only [he, hn, Bool.false_eq_true, if_false, if_true] at h
          calc l.length ≤ (acc ++ p.orders).length + r * limit := ih (made + 1) _ l h
            _ = acc.length + p.orders.length + r * limit := by rw [List.length_append]
            _ ≤ acc.length + limit + r * limit :=
                Nat.add_le_add_right (Nat.add_le_add_left hp _) _
            _ = acc.length + (r + 1) * limit := by ring
        · simp only [he, hn, Bool.false_eq_true, if_false] at h
          have : l = acc ++ p.orders := by
            cases h; rfl
          subst this
          calc (acc ++ p.orders).length = acc.length + p.orders.length := by
                rw [List.length_append]
            _ ≤ acc.length + limit := Nat.add_le_add_left hp _
            _ ≤ acc.length + (r + 1) * limit := by
                have h1 : limit ≤ (r + 1) * limit := by
                  calc limit = 1 * limit := (one_mul _).symm
                    _ ≤ (r + 1) * limit := Nat.mul_le_mul_right _ (by omega)
                omega

/-- C8: the pagination loop terminates within the safety cap for every
sequence of responses: at most `maxPages` requests are issued (even against
a source that always reports more pages), the loop never continues past a
response whose `hasNextPage` is false, and when every page holds at most
`limit` orders the result holds at most `maxPages * limit` orders. -/
theorem fetchOrders_pagination_bounded
    (resp : Nat → Except JsError ShopifyAPIService.PageResp) (maxPages limit : Nat) :
    (ShopifyAPIService.fetchOrders resp maxPages).2 ≤ maxPages ∧
    (∀ k, k + 1 < (ShopifyAPIService.fetchOrders resp maxPages).2 →
      ∃ p, resp k = .ok p ∧ p.errors = false ∧ p.hasNextPage = true) ∧
    (∀ l, (∀ k p, resp k = .ok p → p.orders.length ≤ limit) →
      (ShopifyAPIService.fetchOrders resp maxPages).1 = .ok l →
      l.length ≤ maxPages * limit) := by
  refine ⟨?_, ?_, ?_⟩
  · simpa using fetchPagesAux_requests_le resp maxPages 0 []
  · intro k hk
    exact fetchPagesAux_no_continue_past_false resp maxPages 0 [] k (Nat.zero_le k) hk
  · intro l hlim h
    simpa using fetchPagesAux_length_le resp limit hlim maxPages 0 [] l h

/-- Witness for C8 against a source that always reports more pages. -/
theorem fetchOrders_pagination_bounded_witness :
    (ShopifyAPIService.fetchOrders (fun _ => .ok ⟨false, [orderB], true⟩) 10).2 ≤ 10 ∧
    (∃ p, (fun _ => (.ok ⟨false, [orderB], true⟩ :
        Except JsError ShopifyAPIService.PageResp)) 0 = .ok p ∧
      p.errors = false ∧ p.hasNextPage = true) ∧
    (List.replicate 10 orderB).length ≤ 10 * 1 :=
  ⟨(fetchOrders_pagination_bounded (fun _ => .ok ⟨false, [orderB], true⟩) 10 1).1,
   (fetchOrders_pagination_bounded (fun _ => .ok ⟨false, [orderB], true⟩) 10 1).2.1 0
     (by decide),
   (fetchOrders_pagination_bounded (fun _ => .ok ⟨false, [orderB], true⟩) 10 1).2.2
     (List.replicate 10 orderB) (fun k p h => by cases h; decide) rfl⟩

/-! ## C10: the frame property of `setSyncingFlag` -/

theorem jsOrNullStr_eq_self {a : Option String} (h : a ≠ some "") :
    jsOrNullStr a = a := by
  cases a with
  | none => rfl
  | some s =>
    have hs : s ≠ "" := fun he => h (he ▸ rfl)
    simp [jsOrNullStr, hs]

/-- C10: `ShopModel.setSyncingFlag` re-reads the shop and rewrites the
`order_sync` sub-record in full with exactly the seven checkpoint fields:
`is_syncing` becomes the given value, the six progress fields are preserved
from the stored values (absent ones defaulting to null / 0, and the stored
id/number strings being nonempty as every writer produces), and nothing else
— the orders table, the shop's other fields — changes; the call throws
`'Shop not found'` when the shop does not exist. -/
theorem setSyncingFlag_frame :
    (∀ (st : SyncState) (b : Bool) (s : Shop),
        st.shop = some s →
        s.order_sync.bind (·.last_synced_order_id) ≠ some "" →
        s.order_sync.bind (·.last_synced_order_number) ≠ some "" →
        ∃ s', ShopModel.setSyncingFlag st b = .ok ⟨some s', st.orders⟩ ∧
          s'.shop_domain = s.shop_domain ∧ s'.created_at = s.created_at ∧
          s'.extra = s.extra ∧
          s'.order_sync = some (ShopModel.normalizeOrderSync s.order_sync b) ∧
          (ShopModel.normalizeOrderSync s.order_sync b).is_syncing = b ∧
          (ShopModel.normalizeOrderSync s.order_sync b).last_sync_time =
            s.order_sync.bind (·.last_sync_time) ∧
          (ShopModel.normalizeOrderSync s.order_sync b).last_synced_order_id =
            s.order_sync.bind (·.last_synced_order_id) ∧
          (ShopModel.normalizeOrderSync s.order_sync b).last_synced_order_number =
            s.order_sync.bind (·.last_synced_order_number) ∧
          (ShopModel.normalizeOrderSync s.order_sync b).last_synced_order_created_at =
            s.order_sync.bind (·.last_synced_order_created_at) ∧
          (ShopModel.normalizeOrderSync s.order_sync b).total_orders_synced =
            (s.order_sync.map (·.total_orders_synced)).getD 0 ∧
          (ShopModel.normalizeOrderSync s.order_sync b).last_sync_count =
            (s.order_sync.map (·.last_sync_count)).getD 0) ∧
    (∀ (st : SyncState) (b : Bool), st.shop = none →
        ShopModel.setSyncingFlag st b = .error "Shop not found") := by
  constructor
  · intro st b s hs hid hnum
    refine ⟨{ s with order_sync := some (ShopModel.normalizeOrderSync s.order_sync b) },
      ?_, rfl, rfl, rfl, rfl, rfl, rfl, ?_, ?_, rfl, rfl, rfl⟩
    · simp [ShopModel.setSyncingFlag, hs]
    · exact jsOrNullStr_eq_self hid
    · exact jsOrNullStr_eq_self hnum
  · intro st b hn
    simp [ShopModel.setSyncingFlag, hn]

/-- Witness for C10 on the idle shop and on a state with no shop. -/
theorem setSyncingFlag_frame_witness :
    (∃ s', ShopModel.setSyncingFlag stIdle true = .ok ⟨some s', stIdle.orders⟩ ∧
      s'.shop_domain = shopIdle.shop_domain ∧ s'.created_at = shopIdle.created_at ∧
      s'.extra = shopIdle.extra ∧
      s'.order_sync = some (ShopModel.normalizeOrderSync shopIdle.order_sync true) ∧
      (ShopModel.normalizeOrderSync shopIdle.order_sync true).is_syncing = true ∧
      (ShopModel.normalizeOrderSync shopIdle.order_sync true).last_sync_time =
        shopIdle.order_sync.bind (·.last_sync_time) ∧
      (ShopModel.normalizeOrderSync shopIdle.order_sync true).last_synced_order_id =
        shopIdle.order_sync.bind (·.last_synced_order_id) ∧
      (ShopModel.normalizeOrderSync shopIdle.order_sync true).last_synced_order_number =
        shopIdle.order_sync.bind (·.last_synced_order_number) ∧
      (ShopModel.normalizeOrderSync shopIdle.order_sync true).last_synced_order_created_at =
        shopIdle.order_sync.bind (·.last_synced_order_created_at) ∧
      (ShopModel.normalizeOrderSync shopIdle.order_sync true).total_orders_synced =
        (shopIdle.order_sync.map (·.total_orders_synced)).getD 0 ∧
      (ShopModel.normalizeOrderSync shopIdle.order_sync true).last_sync_count =
        (shopIdle.order_sync.map (·.last_sync_count)).getD 0) ∧
    ShopModel.setSyncingFlag ⟨none, []⟩ true = .error "Shop not found" :=
  ⟨setSyncingFlag_frame.1 stIdle true shopIdle rfl (by decide) (by decide),
   setSyncingFlag_frame.2 ⟨none, []⟩ true rfl⟩

end SBB
